import Mathlib

/-!
Shallow embedding of `cloudbaseinit/metadata/services/base.py` (class
`BaseMetadataService`): the retry wrapper `_exec_with_retry`, the cached
fetch `_get_cache_data`, the typed accessors (`get_content`,
`get_user_data`, `get_meta_data`, `is_password_set`, `post_password`),
the path builders based on `posixpath.normpath`/`posixpath.join`, and the
URL templating helper `_get_metadata_base_url`.

Python exceptions are modelled with `Except PyError`; the backend's
abstract `_get_data` is a parameter `getData : String → Except PyError Value`;
the module-level configuration (`CONF.retry_count`,
`CONF.retry_count_interval`) and the instance flag `_enable_retry` are
explicit parameters.  Side effects that matter to the specification
(number of raw-fetch invocations, the sleeps performed between attempts)
are returned as explicit trace components.
-/

/-- Python exception kinds relevant to `base.py`: the module's own
`NotExistingMetadataException` class, and every other exception (the
"transient" ones), carrying an identifying message so that propagation
"unchanged" is observable. -/
inductive PyError where
  | notExistingMetadataException : PyError
  | otherError : String → PyError
deriving DecidableEq, Repr

deriving instance DecidableEq for Except

/-- Values handled by the service: Python `str` data, or an
already-structured value (such as a dict parsed from JSON), modelled as a
flat string-keyed object. -/
inductive Value where
  | str : String → Value
  | obj : List (String × String) → Value
deriving DecidableEq, Repr

/-- Python `len` on the values a raw fetch can return: string length for
`str`, number of entries for a structured value. -/
def pyLen : Value → Nat
  | Value.str s => s.length
  | Value.obj l => l.length

/-- Configuration option `retry_count` with its default (from the `opts`
list in `base.py`). -/
def CONF_retry_count : Nat := 5

/-- Configuration option `retry_count_interval` with its default (from the
`opts` list in `base.py`), in seconds. -/
def CONF_retry_count_interval : ℚ := 4

/-- Outcome of running an action through `_exec_with_retry`: the final
result (value or propagated exception), the total number of times the
action was attempted, and the list of sleep durations performed (one
`time.sleep(CONF.retry_count_interval)` between consecutive attempts). -/
structure RetryOutcome (α : Type) where
  result : Except PyError α
  attempts : Nat
  sleeps : List ℚ
deriving DecidableEq, Repr

/-- Loop body of `_exec_with_retry`.  The Python loop keeps a counter `i`
starting at 0 and retries while `self._enable_retry and i < CONF.retry_count`;
here `i` is the index of the current attempt (used to index the action,
which like a Python closure may behave differently on each invocation) and
`remaining = retry_count - i` is the number of retries still allowed, so
that `i < retry_count` is exactly `remaining > 0`. -/
def execWithRetryGo (action : Nat → Except PyError α) (enableRetry : Bool)
    (interval : ℚ) : Nat → Nat → RetryOutcome α
  | i, remaining =>
    match action i with
    | Except.ok v => ⟨Except.ok v, 1, []⟩
    | Except.error PyError.notExistingMetadataException =>
        ⟨Except.error PyError.notExistingMetadataException, 1, []⟩
    | Except.error (PyError.otherError m) =>
        if enableRetry then
          match remaining with
          | 0 => ⟨Except.error (PyError.otherError m), 1, []⟩
          | r + 1 =>
              let out := execWithRetryGo action enableRetry interval (i + 1) r
              ⟨out.result, out.attempts + 1, interval :: out.sleeps⟩
        else ⟨Except.error (PyError.otherError m), 1, []⟩

/-- Embedding of `BaseMetadataService._exec_with_retry`: attempt the
action; re-raise `NotExistingMetadataException` immediately; on any other
exception, if retry is enabled and fewer than `retry_count` retries have
happened, sleep `retry_count_interval` and try again, otherwise re-raise. -/
def exec_with_retry (action : Nat → Except PyError α) (enableRetry : Bool)
    (retry_count : Nat) (interval : ℚ) : RetryOutcome α :=
  execWithRetryGo action enableRetry interval 0 retry_count

theorem execWithRetryGo_all_transient (α : Type) (msg : Nat → String) (interval : ℚ) :
    ∀ remaining i,
      execWithRetryGo
          (fun k => (Except.error (PyError.otherError (msg k)) : Except PyError α))
          true interval i remaining =
        ⟨Except.error (PyError.otherError (msg (i + remaining))),
         remaining + 1, List.replicate remaining interval⟩ := by
  intro remaining
  induction remaining with
  | zero =>
      intro i
      simp only [Nat.add_zero]
      rfl
  | succ r ih =>
      intro i
      rw [show execWithRetryGo
            (fun k => (Except.error (PyError.otherError (msg k)) : Except PyError α))
            true interval i (r + 1) =
          ⟨(execWithRetryGo
              (fun k => (Except.error (PyError.otherError (msg k)) : Except PyError α))
              true interval (i + 1) r).result,
           (execWithRetryGo
              (fun k => (Except.error (PyError.otherError (msg k)) : Except PyError α))
              true interval (i + 1) r).attempts + 1,
           interval :: (execWithRetryGo
              (fun k => (Except.error (PyError.otherError (msg k)) : Except PyError α))
              true interval (i + 1) r).sleeps⟩ from rfl,
        ih (i + 1), show i + 1 + r = i + (r + 1) from by omega,
        List.replicate_succ]

theorem execWithRetryGo_nem (action : Nat → Except PyError α)
    (enableRetry : Bool) (interval : ℚ) (remaining i : Nat)
    (h : action i = Except.error PyError.notExistingMetadataException) :
    execWithRetryGo action enableRetry interval i remaining =
      ⟨Except.error PyError.notExistingMetadataException, 1, []⟩ := by
  unfold execWithRetryGo
  rw [h]

theorem execWithRetryGo_const_ok (x : Except PyError α) (enableRetry : Bool)
    (interval : ℚ) :
    ∀ remaining i v,
      (execWithRetryGo (fun _ => x) enableRetry interval i remaining).result
          = Except.ok v →
      x = Except.ok v ∧
        execWithRetryGo (fun _ => x) enableRetry interval i remaining =
          ⟨Except.ok v, 1, []⟩ := by
  intro remaining
  induction remaining with
  | zero =>
      intro i v h
      cases x with
      | ok w =>
          have hg : execWithRetryGo (fun _ => (Except.ok w : Except PyError α))
              enableRetry interval i 0 = ⟨Except.ok w, 1, []⟩ := rfl
          rw [hg] at h
          simp only [Except.ok.injEq] at h
          subst h
          exact ⟨rfl, hg⟩
      | error e =>
          cases e with
          | notExistingMetadataException =>
              have hg : execWithRetryGo
                  (fun _ => (Except.error PyError.notExistingMetadataException :
                    Except PyError α)) enableRetry interval i 0 =
                  ⟨Except.error PyError.notExistingMetadataException, 1, []⟩ := rfl
              rw [hg] at h
              simp at h
          | otherError m =>
              cases enableRetry with
              | false =>
                  have hg : execWithRetryGo
                      (fun _ => (Except.error (PyError.otherError m) :
                        Except PyError α)) false interval i 0 =
                      ⟨Except.error (PyError.otherError m), 1, []⟩ := rfl
                  rw [hg] at h
                  simp at h
              | true =>
                  have hg : execWithRetryGo
                      (fun _ => (Except.error (PyError.otherError m) :
                        Except PyError α)) true interval i 0 =
                      ⟨Except.error (PyError.otherError m), 1, []⟩ := rfl
                  rw [hg] at h
                  simp at h
  | succ r ih =>
      intro i v h
      cases x with
      | ok w =>
          have hg : execWithRetryGo (fun _ => (Except.ok w : Except PyError α))
              enableRetry interval i (r + 1) = ⟨Except.ok w, 1, []⟩ := rfl
          rw [hg] at h
          simp only [Except.ok.injEq] at h
          subst h
          exact ⟨rfl, hg⟩
      | error e =>
          cases e with
          | notExistingMetadataException =>
              have hg : execWithRetryGo
                  (fun _ => (Except.error PyError.notExistingMetadataException :
                    Except PyError α)) enableRetry interval i (r + 1) =
                  ⟨Except.error PyError.notExistingMetadataException, 1, []⟩ := rfl
              rw [hg] at h
              simp at h
          | otherError m =>
              cases enableRetry with
              | false =>
                  have hg : execWithRetryGo
                      (fun _ => (Except.error (PyError.otherError m) :
                        Except PyError α)) false interval i (r + 1) =
                      ⟨Except.error (PyError.otherError m), 1, []⟩ := rfl
                  rw [hg] at h
                  simp at h
              | true =>
                  have hg : execWithRetryGo
                      (fun _ => (Except.error (PyError.otherError m) :
                        Except PyError α)) true interval i (r + 1) =
                      ⟨(execWithRetryGo
                          (fun _ => (Except.error (PyError.otherError m) :
                            Except PyError α)) true interval (i + 1) r).result,
                       (execWithRetryGo
                          (fun _ => (Except.error (PyError.otherError m) :
                            Except PyError α)) true interval (i + 1) r).attempts + 1,
                       interval :: (execWithRetryGo
                          (fun _ => (Except.error (PyError.otherError m) :
                            Except PyError α)) true interval (i + 1) r).sleeps⟩ := rfl
                  rw [hg] at h
                  have hcontra := (ih (i + 1) v h).1
                  simp at hcontra

/-- Claim C1: with retry enabled and an action that fails with a transient
(non-`NotExistingMetadataException`) error on every attempt, the wrapper
makes exactly `retry_count + 1` attempts, sleeps the configured fixed
interval between consecutive attempts (`retry_count` sleeps in all), and
propagates the failure of the final attempt unchanged. -/
theorem C1_retry_exhausts_all_attempts (retry_count : Nat) (interval : ℚ)
    (msg : Nat → String) :
    exec_with_retry
        (fun k => (Except.error (PyError.otherError (msg k)) : Except PyError Value))
        true retry_count interval =
      ⟨Except.error (PyError.otherError (msg retry_count)),
       retry_count + 1, List.replicate retry_count interval⟩ := by
  unfold exec_with_retry
  rw [execWithRetryGo_all_transient Value msg interval retry_count 0]
  simp

/-- Claim C2: whatever the action and whether or not retry is enabled, if
the first attempt fails with `NotExistingMetadataException` then the
wrapper makes exactly one attempt, performs no sleep, and re-raises that
error immediately. -/
theorem C2_nem_not_retried (action : Nat → Except PyError Value)
    (enableRetry : Bool) (retry_count : Nat) (interval : ℚ)
    (h : action 0 = Except.error PyError.notExistingMetadataException) :
    exec_with_retry action enableRetry retry_count interval =
      ⟨Except.error PyError.notExistingMetadataException, 1, []⟩ := by
  unfold exec_with_retry
  exact execWithRetryGo_nem action enableRetry interval retry_count 0 h

/-- Witness for C2 at a concrete action and the default configuration. -/
theorem C2_nem_not_retried_witness :
    (fun _ : Nat =>
        (Except.error PyError.notExistingMetadataException : Except PyError Value)) 0
        = Except.error PyError.notExistingMetadataException ∧
      exec_with_retry
          (fun _ : Nat =>
            (Except.error PyError.notExistingMetadataException : Except PyError Value))
          true CONF_retry_count CONF_retry_count_interval =
        ⟨Except.error PyError.notExistingMetadataException, 1, []⟩ :=
  ⟨rfl, C2_nem_not_retried _ true CONF_retry_count CONF_retry_count_interval rfl⟩

/-- Model of Python `posixpath.join` on two components: an absolute second
component discards the first; otherwise insert a `/` separator unless the
first component is empty or already ends in `/`. -/
def pjoin (a b : String) : String :=
  if b.startsWith "/" then b
  else if a = "" ∨ a.endsWith "/" then a ++ b
  else a ++ "/" ++ b

/-- Model of Python `posixpath.normpath`: collapse empty and `.`
components, resolve `..` against preceding components, and preserve the
leading-slash convention (`//` kept as such, other runs collapsed). -/
def normpath (p : String) : String :=
  if p = "" then "."
  else
    let initialSlashes : Nat :=
      if p.startsWith "/" then
        if p.startsWith "//" ∧ ¬ p.startsWith "///" then 2 else 1
      else 0
    let comps := p.splitOn "/"
    let newComps := comps.foldl
      (fun acc comp =>
        if comp = "" ∨ comp = "." then acc
        else if comp ≠ ".." ∨ (initialSlashes = 0 ∧ acc = []) ∨
            (acc ≠ [] ∧ acc.getLast? = some "..") then acc ++ [comp]
        else if acc ≠ [] then acc.dropLast
        else acc)
      ([] : List String)
    let joined := String.intercalate "/" newComps
    let res := String.mk (List.replicate initialSlashes '/') ++ joined
    if res = "" then "." else res

/-- Python `path in self._cache` / `self._cache[path]` combined: the
instance's dict modelled as an association list. -/
def cacheLookup : List (String × Value) → String → Option Value
  | [], _ => none
  | (k, v) :: rest, path => if k = path then some v else cacheLookup rest path

/-- Python `self._cache[path] = data` on the dict. -/
def cacheInsert : List (String × Value) → String → Value → List (String × Value)
  | [], path, d => [(path, d)]
  | (k, v) :: rest, path, d =>
      if k = path then (k, d) :: rest else (k, v) :: cacheInsert rest path d

/-- Embedding of `BaseMetadataService.load`: reset the cache to empty. -/
def load (_cache : List (String × Value)) : List (String × Value) := []

/-- Embedding of the `can_post_password` property default. -/
def can_post_password : Bool := false

/-- Result of `_get_cache_data`: the returned value or propagated
exception, the cache dict afterwards, and the number of times the
backend's raw `_get_data` was invoked during the call (one per attempt of
the retry wrapper, zero on a cache hit). -/
structure FetchResult where
  result : Except PyError Value
  cache : List (String × Value)
  rawCalls : Nat
deriving DecidableEq, Repr

/-- Embedding of `BaseMetadataService._get_cache_data`: answer from the
cache when the path is present; otherwise run the raw fetch through
`_exec_with_retry` and store a successful result in the cache before
returning it (a failure propagates before the store). -/
def get_cache_data (getData : String → Except PyError Value) (enableRetry : Bool)
    (retry_count : Nat) (interval : ℚ) (cache : List (String × Value))
    (path : String) : FetchResult :=
  match cacheLookup cache path with
  | some v => ⟨Except.ok v, cache, 0⟩
  | none =>
      let r := exec_with_retry (fun _ => getData path) enableRetry retry_count interval
      match r.result with
      | Except.ok d => ⟨Except.ok d, cacheInsert cache path d, r.attempts⟩
      | Except.error e => ⟨Except.error e, cache, r.attempts⟩

/-- Embedding of `BaseMetadataService.get_content`. -/
def get_content (getData : String → Except PyError Value) (enableRetry : Bool)
    (retry_count : Nat) (interval : ℚ) (cache : List (String × Value))
    (data_type name : String) : FetchResult :=
  get_cache_data getData enableRetry retry_count interval cache
    (normpath (pjoin (pjoin data_type "content") name))

/-- Embedding of `BaseMetadataService.get_user_data`. -/
def get_user_data (getData : String → Except PyError Value) (enableRetry : Bool)
    (retry_count : Nat) (interval : ℚ) (cache : List (String × Value))
    (data_type version : String) : FetchResult :=
  get_cache_data getData enableRetry retry_count interval cache
    (normpath (pjoin (pjoin data_type version) "user_data"))

/-- Result of `get_meta_data`: outcome, cache afterwards, and the number
of `_get_cache_data` invocations the call performed (the source performs a
second one when the first returned a `str`, feeding it to `json.loads`). -/
structure MetaResult where
  result : Except PyError Value
  cache : List (String × Value)
  cacheFetches : Nat
deriving DecidableEq, Repr

/-- Embedding of `BaseMetadataService.get_meta_data` with `json.loads`
modelled by the parameter `loads`: fetch (cached) the `meta_data.json`
path; if the value is a `str`, call `_get_cache_data` again and JSON-parse
that result; a non-`str` value is returned unchanged. -/
def get_meta_data (loads : String → Value) (getData : String → Except PyError Value)
    (enableRetry : Bool) (retry_count : Nat) (interval : ℚ)
    (cache : List (String × Value)) (data_type version : String) : MetaResult :=
  let path := normpath (pjoin (pjoin data_type version) "meta_data.json")
  let r1 := get_cache_data getData enableRetry retry_count interval cache path
  match r1.result with
  | Except.error e => ⟨Except.error e, r1.cache, 1⟩
  | Except.ok (Value.obj o) => ⟨Except.ok (Value.obj o), r1.cache, 1⟩
  | Except.ok (Value.str _) =>
      let r2 := get_cache_data getData enableRetry retry_count interval r1.cache path
      match r2.result with
      | Except.error e => ⟨Except.error e, r2.cache, 2⟩
      | Except.ok (Value.str s) => ⟨Except.ok (loads s), r2.cache, 2⟩
      | Except.ok (Value.obj _) =>
          ⟨Except.error (PyError.otherError "TypeError"), r2.cache, 2⟩

/-- Embedding of `BaseMetadataService._get_password_path`. -/
def get_password_path (version : String) : String :=
  normpath (pjoin (pjoin "openstack" version) "password")

/-- Result of `is_password_set`: the boolean (or propagated exception),
the cache dict afterwards, and the number of raw `_get_data` calls. -/
structure PwdResult where
  result : Except PyError Bool
  cache : List (String × Value)
  rawCalls : Nat
deriving DecidableEq, Repr

/-- Embedding of `BaseMetadataService.is_password_set`: call the raw
`_get_data` directly on the password path (no cache, no retry wrapper)
and test whether the returned data is non-empty. -/
def is_password_set (getData : String → Except PyError Value)
    (cache : List (String × Value)) (version : String) : PwdResult :=
  match getData (get_password_path version) with
  | Except.ok v => ⟨Except.ok (decide (0 < pyLen v)), cache, 1⟩
  | Except.error e => ⟨Except.error e, cache, 1⟩

/-- Default `BaseMetadataService._post_data`: always raises
`NotExistingMetadataException` (posting is unsupported unless the backend
overrides it). -/
def default_post_data (_path _data : String) : Except PyError Value :=
  Except.error PyError.notExistingMetadataException

/-- Embedding of `BaseMetadataService.post_password`: build the password
path and run the backend's `_post_data` through `_exec_with_retry`. -/
def post_password (postData : String → String → Except PyError Value)
    (enableRetry : Bool) (retry_count : Nat) (interval : ℚ)
    (enc_password_b64 version : String) : RetryOutcome Value :=
  exec_with_retry (fun _ => postData (get_password_path version) enc_password_b64)
    enableRetry retry_count interval

/-- Character-list test that `pat` occurs at the head of `s` (used to
model Python substring operations). -/
def startsWithL : List Char → List Char → Bool
  | [], _ => true
  | _ :: _, [] => false
  | p :: ps, c :: cs => p == c && startsWithL ps cs

/-- Model of the Python substring test `pat in s` on character lists. -/
def containsSubL (pat : List Char) : List Char → Bool
  | [] => startsWithL pat []
  | c :: cs => startsWithL pat (c :: cs) || containsSubL pat cs

/-- Fuelled scanner behind `strReplace`; fuel at least the length of the
scanned list suffices, since each step consumes at least one character. -/
def replaceAllGo (pat repl : List Char) : Nat → List Char → List Char
  | 0, s => s
  | _ + 1, [] => []
  | fuel + 1, c :: cs =>
      if pat ≠ [] ∧ startsWithL pat (c :: cs) then
        repl ++ replaceAllGo pat repl fuel (List.drop pat.length (c :: cs))
      else c :: replaceAllGo pat repl fuel cs

/-- Model of Python `s.replace(pat, repl)` for a non-empty pattern:
replace every non-overlapping occurrence, scanning left to right. -/
def strReplace (s pat repl : String) : String :=
  String.mk (replaceAllGo pat.data repl.data s.data.length s.data)

/-- Model of the Python substring test `sub in s` on strings. -/
def pyContains (s sub : String) : Bool := containsSubL sub.data s.data

/-- Embedding of `BaseMetadataService._get_metadata_base_url`: when the
template contains the `%default_gateway%` token, replace every occurrence
with the discovered default gateway.  The discovery
(`_get_default_gateway`) queries the host's WMI network configuration; its
result is passed in as `gateway`, the empty string standing for "no
gateway found" exactly as the source initializes `default_gateway`. -/
def get_metadata_base_url (gateway metadata_base_url : String) : String :=
  if pyContains metadata_base_url "%default_gateway%" then
    strReplace metadata_base_url "%default_gateway%" gateway
  else metadata_base_url

theorem cacheLookup_cacheInsert_self (c : List (String × Value)) (p : String) (v : Value) :
    cacheLookup (cacheInsert c p v) p = some v := by
  induction c with
  | nil => simp [cacheInsert, cacheLookup]
  | cons kv rest ih =>
      obtain ⟨k, w⟩ := kv
      by_cases hk : k = p
      · subst hk
        simp [cacheInsert, cacheLookup]
      · simp [cacheInsert, cacheLookup, hk, ih]

theorem get_cache_data_hit (getData : String → Except PyError Value)
    (enableRetry : Bool) (retry_count : Nat) (interval : ℚ)
    (c : List (String × Value)) (p : String) (v : Value)
    (h : cacheLookup c p = some v) :
    get_cache_data getData enableRetry retry_count interval c p =
      ⟨Except.ok v, c, 0⟩ := by
  unfold get_cache_data
  rw [h]

theorem get_cache_data_miss_ok (getData : String → Except PyError Value)
    (enableRetry : Bool) (retry_count : Nat) (interval : ℚ)
    (c : List (String × Value)) (p : String) (d : Value)
    (hl : cacheLookup c p = none)
    (hr : (exec_with_retry (fun _ => getData p) enableRetry retry_count
        interval).result = Except.ok d) :
    get_cache_data getData enableRetry retry_count interval c p =
      ⟨Except.ok d, cacheInsert c p d,
       (exec_with_retry (fun _ => getData p) enableRetry retry_count
          interval).attempts⟩ := by
  unfold get_cache_data
  simp only [hl, hr]

theorem get_cache_data_miss_error (getData : String → Except PyError Value)
    (enableRetry : Bool) (retry_count : Nat) (interval : ℚ)
    (c : List (String × Value)) (p : String) (e : PyError)
    (hl : cacheLookup c p = none)
    (hr : (exec_with_retry (fun _ => getData p) enableRetry retry_count
        interval).result = Except.error e) :
    get_cache_data getData enableRetry retry_count interval c p =
      ⟨Except.error e, c,
       (exec_with_retry (fun _ => getData p) enableRetry retry_count
          interval).attempts⟩ := by
  unfold get_cache_data
  simp only [hl, hr]

theorem get_cache_data_ok_lookup (getData : String → Except PyError Value)
    (enableRetry : Bool) (retry_count : Nat) (interval : ℚ)
    (c : List (String × Value)) (p : String) (v : Value)
    (h : (get_cache_data getData enableRetry retry_count interval c p).result
        = Except.ok v) :
    cacheLookup (get_cache_data getData enableRetry retry_count interval c p).cache p
      = some v := by
  cases hl : cacheLookup c p with
  | some w =>
      rw [get_cache_data_hit getData enableRetry retry_count interval c p w hl] at h ⊢
      simp at h
      rw [hl, h]
  | none =>
      cases hr : (exec_with_retry (fun _ => getData p) enableRetry retry_count
          interval).result with
      | ok d =>
          rw [get_cache_data_miss_ok getData enableRetry retry_count interval
            c p d hl hr] at h ⊢
          simp at h
          rw [← h]
          exact cacheLookup_cacheInsert_self c p d
      | error e =>
          rw [get_cache_data_miss_error getData enableRetry retry_count interval
            c p e hl hr] at h
          simp at h

theorem get_cache_data_error_cache (getData : String → Except PyError Value)
    (enableRetry : Bool) (retry_count : Nat) (interval : ℚ)
    (c : List (String × Value)) (p : String) (e : PyError)
    (h : (get_cache_data getData enableRetry retry_count interval c p).result
        = Except.error e) :
    (get_cache_data getData enableRetry retry_count interval c p).cache = c := by
  cases hl : cacheLookup c p with
  | some w =>
      rw [get_cache_data_hit getData enableRetry retry_count interval c p w hl] at h
      simp at h
  | none =>
      cases hr : (exec_with_retry (fun _ => getData p) enableRetry retry_count
          interval).result with
      | ok d =>
          rw [get_cache_data_miss_ok getData enableRetry retry_count interval
            c p d hl hr] at h
          simp at h
      | error e' =>
          rw [get_cache_data_miss_error getData enableRetry retry_count interval
            c p e' hl hr]

theorem get_cache_data_ok_rawCalls (getData : String → Except PyError Value)
    (enableRetry : Bool) (retry_count : Nat) (interval : ℚ)
    (c : List (String × Value)) (p : String) (v : Value)
    (h : (get_cache_data getData enableRetry retry_count interval c p).result
        = Except.ok v) :
    (get_cache_data getData enableRetry retry_count interval c p).rawCalls ≤ 1 := by
  cases hl : cacheLookup c p with
  | some w =>
      rw [get_cache_data_hit getData enableRetry retry_count interval c p w hl]
      simp
  | none =>
      cases hr : (exec_with_retry (fun _ => getData p) enableRetry retry_count
          interval).result with
      | ok d =>
          rw [get_cache_data_miss_ok getData enableRetry retry_count interval
            c p d hl hr]
          have hx := execWithRetryGo_const_ok (getData p) enableRetry interval
            retry_count 0 d hr
          simp [exec_with_retry, hx.2]
      | error e =>
          rw [get_cache_data_miss_error getData enableRetry retry_count interval
            c p e hl hr] at h
          simp at h

theorem replaceAllGo_no_occurrence (pat repl : List Char) :
    ∀ (fuel : Nat) (s : List Char), containsSubL pat s = false →
      replaceAllGo pat repl fuel s = s := by
  intro fuel
  induction fuel with
  | zero => intro s _; rfl
  | succ f ih =>
      intro s h
      cases s with
      | nil => rfl
      | cons c cs =>
          rw [containsSubL, Bool.or_eq_false_iff] at h
          obtain ⟨h1, h2⟩ := h
          rw [replaceAllGo, if_neg, ih cs h2]
          intro hc
          rw [h1] at hc
          exact Bool.false_ne_true hc.2

/-- Claim C3: if a cached fetch for a path succeeds, a second cached fetch
for the same path (with no intervening `load()`) is answered entirely from
the cache: it returns the value stored by the first call, leaves both the
cache and everything else unchanged, performs zero raw-fetch invocations,
and across both calls the backend's raw `_get_data` is invoked at most
once. -/
theorem C3_second_fetch_is_cache_hit (getData : String → Except PyError Value)
    (enableRetry : Bool) (retry_count : Nat) (interval : ℚ)
    (c : List (String × Value)) (p : String) (v : Value)
    (h : (get_cache_data getData enableRetry retry_count interval c p).result
        = Except.ok v) :
    get_cache_data getData enableRetry retry_count interval
        (get_cache_data getData enableRetry retry_count interval c p).cache p =
      ⟨Except.ok v,
       (get_cache_data getData enableRetry retry_count interval c p).cache, 0⟩ ∧
    (get_cache_data getData enableRetry retry_count interval c p).rawCalls +
      (get_cache_data getData enableRetry retry_count interval
        (get_cache_data getData enableRetry retry_count interval c p).cache
        p).rawCalls ≤ 1 := by
  have hlk := get_cache_data_ok_lookup getData enableRetry retry_count interval
    c p v h
  have hhit := get_cache_data_hit getData enableRetry retry_count interval
    (get_cache_data getData enableRetry retry_count interval c p).cache p v hlk
  refine ⟨hhit, ?_⟩
  rw [hhit]
  have h1 := get_cache_data_ok_rawCalls getData enableRetry retry_count interval
    c p v h
  simpa using h1

/-- Witness for C3: a backend that answers `"p"` with the string `"pw"`,
starting from the empty cache. -/
theorem C3_second_fetch_is_cache_hit_witness :
    (get_cache_data (fun _ => Except.ok (Value.str "pw")) false CONF_retry_count
        CONF_retry_count_interval [] "p").result = Except.ok (Value.str "pw") ∧
      get_cache_data (fun _ => Except.ok (Value.str "pw")) false CONF_retry_count
          CONF_retry_count_interval
          (get_cache_data (fun _ => Except.ok (Value.str "pw")) false
            CONF_retry_count CONF_retry_count_interval [] "p").cache "p" =
        ⟨Except.ok (Value.str "pw"),
         (get_cache_data (fun _ => Except.ok (Value.str "pw")) false
           CONF_retry_count CONF_retry_count_interval [] "p").cache, 0⟩ :=
  ⟨by decide,
   (C3_second_fetch_is_cache_hit (fun _ => Except.ok (Value.str "pw")) false
     CONF_retry_count CONF_retry_count_interval [] "p" (Value.str "pw")
     (by decide)).1⟩

/-- Claim C4: a cached fetch is atomic with respect to the cache — on
success the fetched value is stored in the cache under the requested path,
and on failure the cache is exactly what it was before the call. -/
theorem C4_fetch_atomic_wrt_cache (getData : String → Except PyError Value)
    (enableRetry : Bool) (retry_count : Nat) (interval : ℚ)
    (c : List (String × Value)) (p : String) :
    (∀ v, (get_cache_data getData enableRetry retry_count interval c p).result
        = Except.ok v →
      cacheLookup
        (get_cache_data getData enableRetry retry_count interval c p).cache p
        = some v) ∧
    (∀ e, (get_cache_data getData enableRetry retry_count interval c p).result
        = Except.error e →
      (get_cache_data getData enableRetry retry_count interval c p).cache = c) := by
  constructor
  · intro v h
    exact get_cache_data_ok_lookup getData enableRetry retry_count interval c p v h
  · intro e h
    exact get_cache_data_error_cache getData enableRetry retry_count interval c p e h

/-- Witness for C4: the failure side at a backend that always raises a
transient error, and the success side at a backend returning `"pw"`. -/
theorem C4_fetch_atomic_wrt_cache_witness :
    ((get_cache_data (fun _ => Except.error (PyError.otherError "boom")) true
        CONF_retry_count CONF_retry_count_interval [("q", Value.str "old")]
        "p").result = Except.error (PyError.otherError "boom") ∧
      (get_cache_data (fun _ => Except.error (PyError.otherError "boom")) true
        CONF_retry_count CONF_retry_count_interval [("q", Value.str "old")]
        "p").cache = [("q", Value.str "old")]) ∧
    ((get_cache_data (fun _ => Except.ok (Value.str "pw")) false CONF_retry_count
        CONF_retry_count_interval [] "p").result = Except.ok (Value.str "pw") ∧
      cacheLookup (get_cache_data (fun _ => Except.ok (Value.str "pw")) false
        CONF_retry_count CONF_retry_count_interval [] "p").cache "p"
        = some (Value.str "pw")) :=
  ⟨⟨by decide,
    (C4_fetch_atomic_wrt_cache (fun _ => Except.error (PyError.otherError "boom"))
      true CONF_retry_count CONF_retry_count_interval [("q", Value.str "old")]
      "p").2 (PyError.otherError "boom") (by decide)⟩,
   ⟨by decide,
    (C4_fetch_atomic_wrt_cache (fun _ => Except.ok (Value.str "pw")) false
      CONF_retry_count CONF_retry_count_interval [] "p").1 (Value.str "pw")
      (by decide)⟩⟩

theorem get_meta_data_of_str (loads : String → Value)
    (getData : String → Except PyError Value) (enableRetry : Bool)
    (retry_count : Nat) (interval : ℚ) (c : List (String × Value))
    (data_type version s : String)
    (h : (get_cache_data getData enableRetry retry_count interval c
        (normpath (pjoin (pjoin data_type version) "meta_data.json"))).result
        = Except.ok (Value.str s)) :
    get_meta_data loads getData enableRetry retry_count interval c
        data_type version =
      ⟨Except.ok (loads s),
       (get_cache_data getData enableRetry retry_count interval c
         (normpath (pjoin (pjoin data_type version) "meta_data.json"))).cache,
       2⟩ := by
  have hlk := get_cache_data_ok_lookup getData enableRetry retry_count interval
    c (normpath (pjoin (pjoin data_type version) "meta_data.json"))
    (Value.str s) h
  have hhit := get_cache_data_hit getData enableRetry retry_count interval
    (get_cache_data getData enableRetry retry_count interval c
      (normpath (pjoin (pjoin data_type version) "meta_data.json"))).cache
    (normpath (pjoin (pjoin data_type version) "meta_data.json"))
    (Value.str s) hlk
  unfold get_meta_data
  simp only [h, hhit]

theorem get_meta_data_of_obj (loads : String → Value)
    (getData : String → Except PyError Value) (enableRetry : Bool)
    (retry_count : Nat) (interval : ℚ) (c : List (String × Value))
    (data_type version : String) (o : List (String × String))
    (h : (get_cache_data getData enableRetry retry_count interval c
        (normpath (pjoin (pjoin data_type version) "meta_data.json"))).result
        = Except.ok (Value.obj o)) :
    get_meta_data loads getData enableRetry retry_count interval c
        data_type version =
      ⟨Except.ok (Value.obj o),
       (get_cache_data getData enableRetry retry_count interval c
         (normpath (pjoin (pjoin data_type version) "meta_data.json"))).cache,
       1⟩ := by
  unfold get_meta_data
  simp only [h]

/-- Claim C5: `get_meta_data` returns the JSON-parsed structure
(`json.loads`, modelled by the parameter `loads`) when the cached-or-fetched
raw value for the `meta_data.json` path is a string, and returns the raw
value unchanged when it is already structured (non-string). -/
theorem C5_meta_data_parses_string_values (loads : String → Value)
    (getData : String → Except PyError Value) (enableRetry : Bool)
    (retry_count : Nat) (interval : ℚ) (c : List (String × Value))
    (data_type version : String) :
    (∀ s, (get_cache_data getData enableRetry retry_count interval c
        (normpath (pjoin (pjoin data_type version) "meta_data.json"))).result
        = Except.ok (Value.str s) →
      (get_meta_data loads getData enableRetry retry_count interval c
        data_type version).result = Except.ok (loads s)) ∧
    (∀ o, (get_cache_data getData enableRetry retry_count interval c
        (normpath (pjoin (pjoin data_type version) "meta_data.json"))).result
        = Except.ok (Value.obj o) →
      (get_meta_data loads getData enableRetry retry_count interval c
        data_type version).result = Except.ok (Value.obj o)) := by
  constructor
  · intro s h
    rw [get_meta_data_of_str loads getData enableRetry retry_count interval c
      data_type version s h]
  · intro o h
    rw [get_meta_data_of_obj loads getData enableRetry retry_count interval c
      data_type version o h]

/-- Witness for C5: a backend answering with the raw string `"rawjson"`
and a parse function mapping it to the structure `uuid = abc`. -/
theorem C5_meta_data_parses_string_values_witness :
    (get_cache_data (fun _ => Except.ok (Value.str "rawjson")) false
        CONF_retry_count CONF_retry_count_interval []
        (normpath (pjoin (pjoin "openstack" "latest") "meta_data.json"))).result
      = Except.ok (Value.str "rawjson") ∧
    (get_meta_data (fun _ => Value.obj [("uuid", "abc")])
        (fun _ => Except.ok (Value.str "rawjson")) false CONF_retry_count
        CONF_retry_count_interval [] "openstack" "latest").result
      = Except.ok (Value.obj [("uuid", "abc")]) :=
  ⟨by decide,
   (C5_meta_data_parses_string_values (fun _ => Value.obj [("uuid", "abc")])
     (fun _ => Except.ok (Value.str "rawjson")) false CONF_retry_count
     CONF_retry_count_interval [] "openstack" "latest").1 "rawjson" (by decide)⟩

/-- Claim C10: after a successful `get_meta_data` whose raw value was a
string, the cache still holds the raw unparsed string for the
`meta_data.json` path (never the parsed structure); the call performed the
second cache lookup the source does before `json.loads`; and a subsequent
`get_meta_data` re-parses the cached string (two cache lookups again) and
leaves the cache unchanged. -/
theorem C10_meta_data_never_caches_parsed (loads : String → Value)
    (getData : String → Except PyError Value) (enableRetry : Bool)
    (retry_count : Nat) (interval : ℚ) (c : List (String × Value))
    (data_type version s : String)
    (h : (get_cache_data getData enableRetry retry_count interval c
        (normpath (pjoin (pjoin data_type version) "meta_data.json"))).result
        = Except.ok (Value.str s)) :
    get_meta_data loads getData enableRetry retry_count interval c
        data_type version =
      ⟨Except.ok (loads s),
       (get_cache_data getData enableRetry retry_count interval c
         (normpath (pjoin (pjoin data_type version) "meta_data.json"))).cache,
       2⟩ ∧
    cacheLookup (get_meta_data loads getData enableRetry retry_count interval c
        data_type version).cache
        (normpath (pjoin (pjoin data_type version) "meta_data.json"))
      = some (Value.str s) ∧
    get_meta_data loads getData enableRetry retry_count interval
        (get_meta_data loads getData enableRetry retry_count interval c
          data_type version).cache data_type version =
      ⟨Except.ok (loads s),
       (get_meta_data loads getData enableRetry retry_count interval c
         data_type version).cache, 2⟩ := by
  have hm1 := get_meta_data_of_str loads getData enableRetry retry_count interval
    c data_type version s h
  have hlk := get_cache_data_ok_lookup getData enableRetry retry_count interval
    c (normpath (pjoin (pjoin data_type version) "meta_data.json"))
    (Value.str s) h
  have hlk1 : cacheLookup (get_meta_data loads getData enableRetry retry_count
      interval c data_type version).cache
      (normpath (pjoin (pjoin data_type version) "meta_data.json"))
      = some (Value.str s) := by
    rw [hm1]
    exact hlk
  refine ⟨hm1, hlk1, ?_⟩
  have hhit2 := get_cache_data_hit getData enableRetry retry_count interval
    (get_meta_data loads getData enableRetry retry_count interval c
      data_type version).cache
    (normpath (pjoin (pjoin data_type version) "meta_data.json"))
    (Value.str s) hlk1
  have h2 : (get_cache_data getData enableRetry retry_count interval
      (get_meta_data loads getData enableRetry retry_count interval c
        data_type version).cache
      (normpath (pjoin (pjoin data_type version) "meta_data.json"))).result
      = Except.ok (Value.str s) := by
    rw [hhit2]
  have hm2 := get_meta_data_of_str loads getData enableRetry retry_count interval
    (get_meta_data loads getData enableRetry retry_count interval c
      data_type version).cache data_type version s h2
  rw [hm2, hhit2]

/-- Witness for C10: same concrete backend and parse function as the C5
witness, checking that the cache still holds the raw string. -/
theorem C10_meta_data_never_caches_parsed_witness :
    (get_cache_data (fun _ => Except.ok (Value.str "rawjson")) false
        CONF_retry_count CONF_retry_count_interval []
        (normpath (pjoin (pjoin "openstack" "latest") "meta_data.json"))).result
      = Except.ok (Value.str "rawjson") ∧
    cacheLookup (get_meta_data (fun _ => Value.obj [("uuid", "abc")])
        (fun _ => Except.ok (Value.str "rawjson")) false CONF_retry_count
        CONF_retry_count_interval [] "openstack" "latest").cache
        (normpath (pjoin (pjoin "openstack" "latest") "meta_data.json"))
      = some (Value.str "rawjson") :=
  ⟨by decide,
   (C10_meta_data_never_caches_parsed (fun _ => Value.obj [("uuid", "abc")])
     (fun _ => Except.ok (Value.str "rawjson")) false CONF_retry_count
     CONF_retry_count_interval [] "openstack" "latest" "rawjson"
     (by decide)).2.1⟩

theorem is_password_set_ok (getData : String → Except PyError Value)
    (cache : List (String × Value)) (version : String) (v : Value)
    (h : getData (get_password_path version) = Except.ok v) :
    is_password_set getData cache version =
      ⟨Except.ok (decide (0 < pyLen v)), cache, 1⟩ := by
  unfold is_password_set
  rw [h]

theorem is_password_set_error (getData : String → Except PyError Value)
    (cache : List (String × Value)) (version : String) (e : PyError)
    (h : getData (get_password_path version) = Except.error e) :
    is_password_set getData cache version = ⟨Except.error e, cache, 1⟩ := by
  unfold is_password_set
  rw [h]

/-- Claim C6: `is_password_set` returns true exactly when the raw fetch of
the normalized password path returns non-empty data; it calls the raw
`_get_data` exactly once, directly (no retry wrapper), and it neither
reads from nor writes to the cache (its result is independent of the cache
contents and the cache is returned untouched). -/
theorem C6_is_password_set_bypasses_cache_and_retry
    (getData : String → Except PyError Value) (cache : List (String × Value))
    (version : String) :
    (∀ v, getData (get_password_path version) = Except.ok v →
      (is_password_set getData cache version =
          ⟨Except.ok (decide (0 < pyLen v)), cache, 1⟩ ∧
        ((is_password_set getData cache version).result = Except.ok true ↔
          0 < pyLen v))) ∧
    (is_password_set getData cache version).cache = cache ∧
    (is_password_set getData cache version).rawCalls = 1 ∧
    (∀ cache', (is_password_set getData cache' version).result =
      (is_password_set getData cache version).result) := by
  refine ⟨?_, ?_, ?_, ?_⟩
  · intro v h
    have he := is_password_set_ok getData cache version v h
    refine ⟨he, ?_⟩
    rw [he]
    simp
  · cases hg : getData (get_password_path version) with
    | ok v => rw [is_password_set_ok getData cache version v hg]
    | error e => rw [is_password_set_error getData cache version e hg]
  · cases hg : getData (get_password_path version) with
    | ok v => rw [is_password_set_ok getData cache version v hg]
    | error e => rw [is_password_set_error getData cache version e hg]
  · intro cache'
    cases hg : getData (get_password_path version) with
    | ok v =>
        rw [is_password_set_ok getData cache version v hg,
          is_password_set_ok getData cache' version v hg]
    | error e =>
        rw [is_password_set_error getData cache version e hg,
          is_password_set_error getData cache' version e hg]

/-- Witness for C6: a backend whose password path holds `"secret"`. -/
theorem C6_is_password_set_bypasses_cache_and_retry_witness :
    (fun _ : String => (Except.ok (Value.str "secret") : Except PyError Value))
        (get_password_path "latest") = Except.ok (Value.str "secret") ∧
      ((is_password_set (fun _ => Except.ok (Value.str "secret")) []
          "latest").result = Except.ok true ↔ 0 < pyLen (Value.str "secret")) :=
  ⟨rfl,
   ((C6_is_password_set_bypasses_cache_and_retry
     (fun _ => Except.ok (Value.str "secret")) [] "latest").1
     (Value.str "secret") rfl).2⟩

/-- Claim C9: when the raw fetch for the password path fails with any
error — `NotExistingMetadataException` included — `is_password_set`
propagates that error unchanged; it never turns a failing fetch into the
result `false`. -/
theorem C9_is_password_set_propagates_errors
    (getData : String → Except PyError Value) (cache : List (String × Value))
    (version : String) (e : PyError)
    (h : getData (get_password_path version) = Except.error e) :
    (is_password_set getData cache version).result = Except.error e ∧
    (is_password_set getData cache version).result ≠ Except.ok false := by
  rw [is_password_set_error getData cache version e h]
  exact ⟨rfl, by simp⟩

/-- Witness for C9: a backend whose password path raises
`NotExistingMetadataException`. -/
theorem C9_is_password_set_propagates_errors_witness :
    (fun _ : String =>
        (Except.error PyError.notExistingMetadataException :
          Except PyError Value)) (get_password_path "latest")
        = Except.error PyError.notExistingMetadataException ∧
      (is_password_set
        (fun _ => Except.error PyError.notExistingMetadataException) []
        "latest").result = Except.error PyError.notExistingMetadataException :=
  ⟨rfl,
   (C9_is_password_set_propagates_errors
     (fun _ => Except.error PyError.notExistingMetadataException) [] "latest"
     PyError.notExistingMetadataException rfl).1⟩

/-- Claim C7: `post_password` builds the normalized password path
`openstack/{version}/password` and runs the backend's `_post_data` through
`_exec_with_retry`; with the default (non-overridden) `_post_data` it
fails with `NotExistingMetadataException` after exactly one attempt and no
sleep, whatever the retry configuration. -/
theorem C7_post_password_retries_write (enableRetry : Bool)
    (retry_count : Nat) (interval : ℚ) (enc_password_b64 version : String) :
    (∀ postData : String → String → Except PyError Value,
      post_password postData enableRetry retry_count interval
          enc_password_b64 version =
        exec_with_retry
          (fun _ => postData (get_password_path version) enc_password_b64)
          enableRetry retry_count interval) ∧
    get_password_path version =
      normpath (pjoin (pjoin "openstack" version) "password") ∧
    post_password default_post_data enableRetry retry_count interval
        enc_password_b64 version =
      ⟨Except.error PyError.notExistingMetadataException, 1, []⟩ := by
  refine ⟨fun _ => rfl, rfl, ?_⟩
  unfold post_password exec_with_retry
  exact execWithRetryGo_nem _ enableRetry interval retry_count 0 rfl

/-- Claim C8: `_get_metadata_base_url` replaces every occurrence of the
`%default_gateway%` token with the discovered gateway address (empty
string when none was found) and returns a token-free template unchanged;
in particular the two behaviours from the specification examples hold. -/
theorem C8_metadata_base_url_substitution (gateway url : String) :
    get_metadata_base_url gateway url =
      strReplace url "%default_gateway%" gateway ∧
    (pyContains url "%default_gateway%" = false →
      get_metadata_base_url gateway url = url) ∧
    get_metadata_base_url "192.168.1.1" "http://%default_gateway%:8080" =
      "http://192.168.1.1:8080" ∧
    get_metadata_base_url "" "http://%default_gateway%:8080" = "http://:8080" := by
  refine ⟨?_, ?_, by decide, by decide⟩
  · unfold get_metadata_base_url
    by_cases hc : pyContains url "%default_gateway%" = true
    · rw [if_pos hc]
    · have hc' : pyContains url "%default_gateway%" = false := by
        simpa using hc
      rw [if_neg (by simp [hc'])]
      unfold strReplace
      rw [replaceAllGo_no_occurrence _ _ _ _ hc']
  · intro hc'
    unfold get_metadata_base_url
    rw [if_neg (by simp [hc'])]

/-- Witness for C8: a template without the token is returned unchanged. -/
theorem C8_metadata_base_url_substitution_witness :
    pyContains "http://169.254.169.254/" "%default_gateway%" = false ∧
      get_metadata_base_url "10.0.0.1" "http://169.254.169.254/" =
        "http://169.254.169.254/" :=
  ⟨by decide,
   (C8_metadata_base_url_substitution "10.0.0.1" "http://169.254.169.254/").2.1
     (by decide)⟩
